import Mathlib

/-!
Shallow embedding of the QR attendance-session flow of the LearnPulse
application (session start/stop in `TeacherDashboard.tsx`, QR redemption in
`StudentDashboard.tsx`, manual override and CSV export in
`AttendanceView.tsx`, role dispatch in `Dashboard.tsx`), over the relational
schema of the SQL migration (tables `sessions` and `attendance` and their
row-level-security policies).

Timestamps are modelled as natural numbers of milliseconds (JavaScript
`Date.now()`); dates as opaque strings; the database is modelled as an
explicit `Store` value threaded through each operation.
-/

namespace LearnPulse

/-- A row of the `sessions` table, restricted to the columns the dashboards
read and write: `id`, `class_id`, `teacher_id`, `session_date`,
`start_time`, `qr_code` (nullable), `qr_expires_at` (nullable timestamp),
`is_active`, `total_students`, `present_count`. -/
structure SessionRec where
  id : String
  class_id : String
  teacher_id : String
  session_date : String
  start_time : String
  qr_code : Option String
  qr_expires_at : Option Nat
  is_active : Bool
  total_students : Nat
  present_count : Nat
deriving DecidableEq, Repr

/-- A row of the `attendance` table: `id` (primary key, modelled as a `Nat`
drawn from a fresh-id counter in place of `gen_random_uuid()`), `session_id`,
`student_id`, `is_present`, `method` (nullable enum, modelled as a string),
`marked_at` (nullable timestamp). -/
structure AttendanceRec where
  id : Nat
  session_id : String
  student_id : String
  is_present : Bool
  method : Option String
  marked_at : Option Nat
deriving DecidableEq, Repr

/-- The database state the attendance flow touches: the `sessions` and
`attendance` tables, plus the fresh-id counter standing in for the
database's id generator for `attendance` rows. -/
structure Store where
  sessions : List SessionRec
  attendance : List AttendanceRec
  nextAttendanceId : Nat
deriving DecidableEq, Repr

/-- `generateQRCode` from `TeacherDashboard.tsx`: builds
`session-${Date.now()}-${Math.random().toString(36).substr(2, 9)}`; the
wall-clock reading and the random suffix are passed in explicitly. -/
def generateQRCode (nowMs : Nat) (rand : String) : String :=
  "session-" ++ toString nowMs ++ "-" ++ rand

/-- `startSession` from `TeacherDashboard.tsx`: updates every `sessions` row
whose `id` equals `sessionId`, setting `is_active = true`, a fresh
`qr_code`, and `qr_expires_at` thirty minutes (1 800 000 ms) after now. -/
def startSession (store : Store) (sessionId : String) (nowMs : Nat)
    (rand : String) : Store :=
  { store with
    sessions := store.sessions.map fun s =>
      if s.id = sessionId then
        { s with
          is_active := true
          qr_code := some (generateQRCode nowMs rand)
          qr_expires_at := some (nowMs + 30 * 60000) }
      else s }

/-- `stopSession` from `TeacherDashboard.tsx`: updates every `sessions` row
whose `id` equals `sessionId`, setting `is_active = false` and clearing
`qr_code` and `qr_expires_at` to null. -/
def stopSession (store : Store) (sessionId : String) : Store :=
  { store with
    sessions := store.sessions.map fun s =>
      if s.id = sessionId then
        { s with
          is_active := false
          qr_code := none
          qr_expires_at := none }
      else s }

/-- `fetchTodaySessions` from `StudentDashboard.tsx`: the rows of `sessions`
whose `session_date` equals today and whose `class_id` is among the classes
the student is enrolled in. The source also orders the rows by `start_time`,
which only affects display order and is not modelled. -/
def fetchTodaySessions (store : Store) (today : String)
    (enrolled : List String) : List SessionRec :=
  store.sessions.filter fun s =>
    s.session_date == today && enrolled.contains s.class_id

/-- The `supabase.from('attendance').upsert({...})` call inside
`handleQRScan` in `StudentDashboard.tsx`. The call passes no `onConflict`
option, so the request carries the client library's default conflict target:
the table's primary key `id`. The inserted row omits `id`, so a freshly
generated id is used and the `ON CONFLICT (id) DO UPDATE` clause can never
fire; when a row with the same `(session_id, student_id)` already exists the
insert instead violates the table's `UNIQUE(session_id, student_id)`
constraint and the request fails, returned here as `none`. On success the
new row carries `is_present = true`, `method = 'qr'`, `marked_at = now`. -/
def upsertAttendance (store : Store) (sessionId studentId : String)
    (nowMs : Nat) : Option Store :=
  if store.attendance.any fun a =>
      a.session_id == sessionId && a.student_id == studentId then
    none
  else
    some { store with
      attendance := store.attendance ++
        [⟨store.nextAttendanceId, sessionId, studentId, true, some "qr",
          some nowMs⟩]
      nextAttendanceId := store.nextAttendanceId + 1 }

/-- Outcome of a QR scan, mirroring the three toasts of `handleQRScan`:
`invalidQR` ("This QR code is not valid for any active session"),
`dbError` ("Failed to mark attendance", the catch branch), and
`marked` ("Attendance marked!"). -/
inductive ScanResult where
  | invalidQR : ScanResult
  | dbError : ScanResult
  | marked : String → ScanResult
deriving DecidableEq, Repr

/-- `handleQRScan` from `StudentDashboard.tsx`: looks for a session in the
student's fetched list with `s.qr_code === qrCode && s.is_active`; if none
matches it reports an invalid QR code and performs no write; otherwise it
upserts an attendance row for (that session, this student). No comparison
against `qr_expires_at` appears anywhere in the function. -/
def handleQRScan (store : Store) (todaySessions : List SessionRec)
    (studentId qrCode : String) (nowMs : Nat) : ScanResult × Store :=
  match todaySessions.find? (fun s => s.qr_code == some qrCode && s.is_active) with
  | none => (ScanResult.invalidQR, store)
  | some session =>
    match upsertAttendance store session.id studentId nowMs with
    | none => (ScanResult.dbError, store)
    | some st => (ScanResult.marked session.id, st)

/-- The row-level-security condition under which a caller `uid` may UPDATE
an `attendance` row, from the migration's policies: "Students can update own
attendance" (`auth.uid() = student_id`) or "Teachers can manage attendance
for their sessions" (a `sessions` row exists with this `session_id` and
`teacher_id = auth.uid()`). -/
def canUpdateAttendance (store : Store) (uid : String)
    (a : AttendanceRec) : Bool :=
  a.student_id == uid ||
    store.sessions.any fun s => s.id == a.session_id && s.teacher_id == uid

/-- `toggleAttendance` from `AttendanceView.tsx`, executed under row-level
security: updates every `attendance` row whose `id` equals `recordId` and
which the caller's policies allow, setting `is_present = !currentStatus`,
`method = 'manual'`, `marked_at = now`. Rows the policy filters out are left
unchanged (row-level security silently excludes them; no error is raised). -/
def toggleAttendance (store : Store) (uid : String) (recordId : Nat)
    (currentStatus : Bool) (nowMs : Nat) : Store :=
  { store with
    attendance := store.attendance.map fun a =>
      if a.id == recordId && canUpdateAttendance store uid a then
        { a with
          is_present := !currentStatus
          method := some "manual"
          marked_at := some nowMs }
      else a }

/-- One row of the attendance list as `AttendanceView.tsx` renders and
exports it: the `attendance` columns joined with the student profile's
`name` and `roll_number`. -/
structure ViewRecord where
  name : String
  roll_number : Option String
  is_present : Bool
  method : Option String
  marked_at : Option Nat
deriving DecidableEq, Repr

/-- One CSV data row of `exportAttendance` in `AttendanceView.tsx`:
`[name, roll_number || '', is_present ? 'Present' : 'Absent', method || '',
marked_at ? format(marked_at) : ''].join(',')`. The browser's
`Date.toLocaleString` rendering is abstracted as the parameter `fmt`. -/
def csvRow (fmt : Nat → String) (r : ViewRecord) : String :=
  String.intercalate ","
    [r.name, r.roll_number.getD "",
     if r.is_present then "Present" else "Absent",
     r.method.getD "",
     match r.marked_at with | some t => fmt t | none => ""]

/-- The header row of `exportAttendance`:
`['Name', 'Roll Number', 'Status', 'Method', 'Marked At'].join(',')`. -/
def csvHeader : String :=
  String.intercalate "," ["Name", "Roll Number", "Status", "Method", "Marked At"]

/-- The list of lines of the CSV built by `exportAttendance`: the header
followed by one row per listed record. -/
def csvLines (fmt : Nat → String) (records : List ViewRecord) : List String :=
  csvHeader :: records.map (csvRow fmt)

/-- `exportAttendance` from `AttendanceView.tsx`, the text it produces:
`[header, ...rows].join('\n')`. -/
def exportAttendance (fmt : Nat → String) (records : List ViewRecord) : String :=
  String.intercalate "\n" (csvLines fmt records)

/-- `exportAttendance` as an operation on the database state: the function
body contains no database call at all (it only formats the already-fetched
records and hands the blob to the browser), so the store is returned
untouched. -/
def exportAttendanceOp (store : Store) (fmt : Nat → String)
    (records : List ViewRecord) : String × Store :=
  (exportAttendance fmt records, store)

/-- The three dashboards `Dashboard.tsx` can render. -/
inductive Dashboard where
  | studentDash : Dashboard
  | teacherDash : Dashboard
  | adminDash : Dashboard
deriving DecidableEq, Repr

/-- `renderDashboard` from `Dashboard.tsx`: a switch on `profile?.role`
('student' and 'teacher' to their dashboards, 'admin' and 'counselor' to the
admin dashboard, anything else — including a missing profile — falls through
to the default case, the student dashboard). A switch on a string compares
the scrutinee against each case label in turn, modelled here as a chain of
equality tests. -/
def renderDashboard (role : Option String) : Dashboard :=
  if role = some "student" then Dashboard.studentDash
  else if role = some "teacher" then Dashboard.teacherDash
  else if role = some "admin" then Dashboard.adminDash
  else if role = some "counselor" then Dashboard.adminDash
  else Dashboard.studentDash

/-- The session invariant of the spec's data model: the active token and the
token expiry are both present or both absent. -/
def tokenExpiryAligned (s : SessionRec) : Prop :=
  s.qr_code.isSome = s.qr_expires_at.isSome

instance (s : SessionRec) : Decidable (tokenExpiryAligned s) := by
  unfold tokenExpiryAligned; infer_instance

/-! ## Helper lemmas and concrete fixtures -/

/-- The find-predicate of `handleQRScan` holds exactly when the row's
`qr_code` equals the scanned string and the row is active. -/
theorem scanPred_iff (qrCode : String) (s : SessionRec) :
    ((s.qr_code == some qrCode && s.is_active) = true) ↔
      (s.qr_code = some qrCode ∧ s.is_active = true) := by
  simp [Bool.and_eq_true, beq_iff_eq]

/-- When no session of the supplied list both carries the scanned code and
is active, `handleQRScan` reports an invalid QR code and leaves the store
untouched. -/
theorem handleQRScan_not_found (store : Store) (l : List SessionRec)
    (studentId qrCode : String) (nowMs : Nat)
    (h : ∀ s ∈ l, ¬(s.qr_code = some qrCode ∧ s.is_active = true)) :
    handleQRScan store l studentId qrCode nowMs =
      (ScanResult.invalidQR, store) := by
  unfold handleQRScan
  rw [List.find?_eq_none.2 fun s hs => by
    simpa [scanPred_iff] using h s hs]

/-- `handleQRScan` never writes the `sessions` table: the store component of
its result has the same sessions as the input store. -/
theorem handleQRScan_snd_sessions (store : Store) (l : List SessionRec)
    (studentId qrCode : String) (nowMs : Nat) :
    ((handleQRScan store l studentId qrCode nowMs).2).sessions =
      store.sessions := by
  unfold handleQRScan
  cases l.find? (fun s => s.qr_code == some qrCode && s.is_active) with
  | none => rfl
  | some s =>
    unfold upsertAttendance
    by_cases hc : (store.attendance.any fun a =>
        a.session_id == s.id && a.student_id == studentId) = true
    · simp [hc]
    · simp [hc]

/-- A scheduled (inactive, token-less) session fixture used by the concrete
theorems: class `c1`, owned by teacher `T`, dated `d1`, 3 expected students,
`present_count` 0. -/
def demoSession : SessionRec :=
  ⟨"s1", "c1", "T", "d1", "09:00", none, none, false, 3, 0⟩

/-- A store holding exactly the scheduled fixture session and no attendance
rows. -/
def demoStore : Store :=
  ⟨[demoSession], [], 1⟩

/-- `demoStore` after the teacher starts session `s1` at time 1000 with
random suffix `r1`: the session holds token `session-1000-r1`, expiring at
1 801 000. -/
def startedStore : Store :=
  startSession demoStore "s1" 1000 "r1"

/-- `startedStore` after student `A` successfully scans the current token at
time 2000. -/
def afterFirstScan : Store :=
  (handleQRScan startedStore (fetchTodaySessions startedStore "d1" ["c1"])
    "A" "session-1000-r1" 2000).2

/-! ## Claim theorems -/

/-- Claim C1: after `startSession` the session's single `qr_code` field holds
the newly issued token, and after a second `startSession` every session row
with that id holds the replacement token and a scan presenting the prior
token is rejected as an invalid QR code with the store unchanged — for any
scan time, in particular before the prior token's expiry. Hypotheses: the
replacement token differs from the prior one, and no pre-existing session
row already carried the prior token. -/
theorem second_start_invalidates_prior_token (store : Store) (sid : String)
    (n1 n2 : Nat) (r1 r2 : String) (today studentId : String)
    (enrolled : List String) (nowMs : Nat)
    (hdistinct : generateQRCode n2 r2 ≠ generateQRCode n1 r1)
    (hfresh : ∀ s ∈ store.sessions,
      s.qr_code ≠ some (generateQRCode n1 r1)) :
    (∀ s ∈ (startSession (startSession store sid n1 r1) sid n2 r2).sessions,
        s.id = sid →
          s.qr_code = some (generateQRCode n2 r2) ∧ s.is_active = true) ∧
    handleQRScan (startSession (startSession store sid n1 r1) sid n2 r2)
        (fetchTodaySessions
          (startSession (startSession store sid n1 r1) sid n2 r2)
          today enrolled)
        studentId (generateQRCode n1 r1) nowMs =
      (ScanResult.invalidQR,
        startSession (startSession store sid n1 r1) sid n2 r2) := by
  have hsess : ∀ s ∈ (startSession (startSession store sid n1 r1) sid
      n2 r2).sessions, s.qr_code ≠ some (generateQRCode n1 r1) := by
    intro s hs
    simp only [startSession, List.map_map, List.mem_map] at hs
    obtain ⟨a, ha, rfl⟩ := hs
    by_cases hid : a.id = sid
    · simp only [Function.comp_apply, hid, if_pos rfl]
      simpa using hdistinct
    · simp only [Function.comp_apply, if_neg hid]
      exact hfresh a ha
  constructor
  · intro s hs hid
    simp only [startSession, List.map_map, List.mem_map] at hs
    obtain ⟨a, ha, rfl⟩ := hs
    by_cases h : a.id = sid
    · simp [Function.comp_apply, h]
    · exfalso
      simp only [Function.comp_apply, if_neg h] at hid
      exact h hid
  · refine handleQRScan_not_found _ _ _ _ _ fun s hs hmatch => ?_
    have hs' : s ∈ (startSession (startSession store sid n1 r1) sid
        n2 r2).sessions := List.mem_of_mem_filter hs
    exact hsess s hs' hmatch.1

/-- Claim C1 witness: concrete run — start session `s1` twice (tokens
`session-1000-r1`, then `session-5000-r2`), then student `A` scans the prior
token at time 6000, well before its expiry 1 801 000; the scan is rejected
and the store unchanged. -/
theorem second_start_invalidates_prior_token_witness :
    handleQRScan (startSession (startSession demoStore "s1" 1000 "r1")
        "s1" 5000 "r2")
      (fetchTodaySessions
        (startSession (startSession demoStore "s1" 1000 "r1") "s1" 5000 "r2")
        "d1" ["c1"])
      "A" (generateQRCode 1000 "r1") 6000 =
      (ScanResult.invalidQR,
        startSession (startSession demoStore "s1" 1000 "r1") "s1" 5000
          "r2") :=
  (second_start_invalidates_prior_token demoStore "s1" 1000 5000 "r1" "r2"
    "d1" "A" ["c1"] 6000 (by decide) (by decide)).2

/-- Claim C2 (code bug): in `startedStore` session `s1` is active with token
`session-1000-r1` and `qr_expires_at = 1 801 000`; a scan presenting that
token at time 2 000 000 — after the expiry — nevertheless succeeds and
creates the attendance row, because `handleQRScan` never consults
`qr_expires_at`. The spec instead requires rejection with `TokenInvalid`
and no record. -/
theorem expired_token_scan_still_marks_attendance :
    startedStore.sessions.map (fun s => s.qr_expires_at) = [some 1801000] ∧
    1801000 < 2000000 ∧
    handleQRScan startedStore
        (fetchTodaySessions startedStore "d1" ["c1"])
        "A" "session-1000-r1" 2000000 =
      (ScanResult.marked "s1",
        { startedStore with
          attendance := [⟨1, "s1", "A", true, some "qr", some 2000000⟩]
          nextAttendanceId := 2 }) := by
  refine ⟨by decide, by decide, by decide⟩

/-- Claim C3 (code bug): student `A` scans the valid token once at time 2000
(success, one row, `marked_at = 2000`); the identical second scan at time
3000 does not update the row in place — the upsert's conflict target is the
primary key, so the insert violates `UNIQUE(session_id, student_id)` and the
call fails, leaving the row's `marked_at` at 2000. The spec instead requires
an idempotent upsert that updates the timestamp and never fails. -/
theorem repeat_scan_fails_instead_of_updating :
    (handleQRScan startedStore
        (fetchTodaySessions startedStore "d1" ["c1"])
        "A" "session-1000-r1" 2000).1 = ScanResult.marked "s1" ∧
    afterFirstScan.attendance = [⟨1, "s1", "A", true, some "qr", some 2000⟩] ∧
    handleQRScan afterFirstScan
        (fetchTodaySessions afterFirstScan "d1" ["c1"])
        "A" "session-1000-r1" 3000 =
      (ScanResult.dbError, afterFirstScan) := by
  refine ⟨by decide, by decide, by decide⟩

/-- Claim C4 (code bug): nothing in the code ever writes
`sessions.present_count`. After student `A` scans successfully (time 2000),
scans again (time 3000, fails on the uniqueness constraint), and student `B`
scans successfully (time 4000), the session's `present_count` is still its
initial 0, not the 2 the spec's scenario requires. -/
theorem present_count_never_incremented :
    (handleQRScan afterFirstScan
        (fetchTodaySessions afterFirstScan "d1" ["c1"])
        "B" "session-1000-r1" 4000).1 = ScanResult.marked "s1" ∧
    ((handleQRScan afterFirstScan
        (fetchTodaySessions afterFirstScan "d1" ["c1"])
        "B" "session-1000-r1" 4000).2).attendance.length = 2 ∧
    ((handleQRScan afterFirstScan
        (fetchTodaySessions afterFirstScan "d1" ["c1"])
        "B" "session-1000-r1" 4000).2).sessions.map
        (fun s => s.present_count) = [0] := by
  refine ⟨by decide, by decide, by decide⟩

/-- Claim C5: every operation preserves the invariant that a session's
active token and token expiry are both present or both absent —
`startSession` sets both together, `stopSession` clears both together, and
`handleQRScan` and `toggleAttendance` never touch the `sessions` token
columns at all. -/
theorem ops_preserve_token_expiry_alignment (store : Store)
    (hinv : ∀ s ∈ store.sessions, tokenExpiryAligned s) :
    (∀ sid nowMs rand, ∀ s ∈ (startSession store sid nowMs rand).sessions,
      tokenExpiryAligned s) ∧
    (∀ sid, ∀ s ∈ (stopSession store sid).sessions, tokenExpiryAligned s) ∧
    (∀ l studentId qrCode nowMs,
      ∀ s ∈ ((handleQRScan store l studentId qrCode nowMs).2).sessions,
        tokenExpiryAligned s) ∧
    (∀ uid rid cur nowMs,
      ∀ s ∈ (toggleAttendance store uid rid cur nowMs).sessions,
        tokenExpiryAligned s) := by
  refine ⟨?_, ?_, ?_, ?_⟩
  · intro sid nowMs rand s hs
    simp only [startSession, List.mem_map] at hs
    obtain ⟨a, ha, rfl⟩ := hs
    by_cases h : a.id = sid
    · simp [tokenExpiryAligned, h]
    · simpa [h] using hinv a ha
  · intro sid s hs
    simp only [stopSession, List.mem_map] at hs
    obtain ⟨a, ha, rfl⟩ := hs
    by_cases h : a.id = sid
    · simp [tokenExpiryAligned, h]
    · simpa [h] using hinv a ha
  · intro l studentId qrCode nowMs s hs
    rw [handleQRScan_snd_sessions] at hs
    exact hinv s hs
  · intro uid rid cur nowMs s hs
    exact hinv s hs

/-- Claim C5 witness: the invariant holds of the started fixture session,
obtained by applying the preservation theorem to `demoStore` (whose lone
scheduled session has both fields absent). -/
theorem ops_preserve_token_expiry_alignment_witness :
    tokenExpiryAligned
      ⟨"s1", "c1", "T", "d1", "09:00", some "session-1000-r1",
        some 1801000, true, 3, 0⟩ :=
  (ops_preserve_token_expiry_alignment demoStore (by decide)).1 "s1" 1000
    "r1"
    ⟨"s1", "c1", "T", "d1", "09:00", some "session-1000-r1", some 1801000,
      true, 3, 0⟩
    (by decide)

/-- Claim C6: `stopSession` is idempotent (a second stop produces exactly
the same store), every row of the stopped session is inactive with token and
expiry cleared, and a scan presenting the token the session held before the
stop is rejected as an invalid QR code with the store unchanged. Hypothesis:
no session row other than `sid` carries that token. -/
theorem stop_clears_token_and_rejects_redeem (store : Store)
    (sid tok today studentId : String) (enrolled : List String)
    (nowMs : Nat)
    (hothers : ∀ s ∈ store.sessions, s.id ≠ sid → s.qr_code ≠ some tok) :
    stopSession (stopSession store sid) sid = stopSession store sid ∧
    (∀ s ∈ (stopSession store sid).sessions, s.id = sid →
      s.is_active = false ∧ s.qr_code = none ∧ s.qr_expires_at = none) ∧
    handleQRScan (stopSession store sid)
        (fetchTodaySessions (stopSession store sid) today enrolled)
        studentId tok nowMs =
      (ScanResult.invalidQR, stopSession store sid) := by
  refine ⟨?_, ?_, ?_⟩
  · simp only [stopSession, List.map_map]
    congr 1
    refine List.map_congr_left fun a _ => ?_
    by_cases h : a.id = sid
    · simp [Function.comp_apply, h]
    · simp [Function.comp_apply, h]
  · intro s hs hid
    simp only [stopSession, List.mem_map] at hs
    obtain ⟨a, ha, rfl⟩ := hs
    by_cases h : a.id = sid
    · simp [h]
    · exfalso
      simp only [if_neg h] at hid
      exact h hid
  · refine handleQRScan_not_found _ _ _ _ _ fun s hs hmatch => ?_
    have hs' : s ∈ (stopSession store sid).sessions :=
      List.mem_of_mem_filter hs
    simp only [stopSession, List.mem_map] at hs'
    obtain ⟨a, ha, rfl⟩ := hs'
    by_cases h : a.id = sid
    · rw [if_pos h] at hmatch
      exact Option.noConfusion hmatch.1
    · rw [if_neg h] at hmatch
      exact hothers a ha h hmatch.1

/-- Claim C6 witness: concrete run — stop the started fixture session (which
holds token `session-1000-r1`), then student `A` presents that token at time
3000; the scan is rejected and the store unchanged. -/
theorem stop_clears_token_and_rejects_redeem_witness :
    handleQRScan (stopSession startedStore "s1")
        (fetchTodaySessions (stopSession startedStore "s1") "d1" ["c1"])
        "A" "session-1000-r1" 3000 =
      (ScanResult.invalidQR, stopSession startedStore "s1") :=
  (stop_clears_token_and_rejects_redeem startedStore "s1" "session-1000-r1"
    "d1" "A" ["c1"] 3000 (by decide)).2.2

/-- An existing attendance row for student `A` in session `s1`, used by the
manual-override theorems. -/
def overrideRecord : AttendanceRec :=
  ⟨1, "s1", "A", true, some "qr", some 10⟩

/-- A store with the fixture session (owned by teacher `T`) and the existing
attendance row of student `A`. -/
def overrideStore : Store :=
  ⟨[demoSession], [overrideRecord], 2⟩

/-- Claim C7 counterexample: caller `A` owns no session (`s1` is owned by
`T`), yet `A`'s manual override of their own attendance row is not rejected:
the row-level policy "Students can update own attendance" lets the update
through, flipping the row to absent with `method = 'manual'`. The claim that
any non-owner caller is rejected is therefore false on the code. -/
theorem student_can_override_own_attendance :
    overrideStore.sessions.all (fun s => s.teacher_id != "A") = true ∧
    toggleAttendance overrideStore "A" 1 true 42 =
      { overrideStore with
        attendance := [⟨1, "s1", "A", false, some "manual", some 42⟩] } := by
  refine ⟨by decide, by decide⟩

/-- Claim C7 as amended: a manual override by the session owner updates the
targeted row regardless of its prior state — toggling the stored presence
flag, setting `method = 'manual'` and the timestamp to the override time —
and a caller who is neither the session owner nor the row's own student is
rejected in the sense that the store is left completely unchanged (row-level
security filters the row out of the update); the row's own student, however,
is also allowed through. -/
theorem manual_override_policy (store : Store) (uid : String) (rid : Nat)
    (cur : Bool) (nowMs : Nat) :
    ((∀ a ∈ store.attendance, a.id = rid → a.student_id ≠ uid ∧
        ∀ s ∈ store.sessions, s.id = a.session_id → s.teacher_id ≠ uid) →
      toggleAttendance store uid rid cur nowMs = store) ∧
    (∀ a ∈ store.attendance, a.id = rid →
      (∃ s ∈ store.sessions, s.id = a.session_id ∧ s.teacher_id = uid) →
      { a with
        is_present := !cur
        method := some "manual"
        marked_at := some nowMs } ∈
        (toggleAttendance store uid rid cur nowMs).attendance) := by
  constructor
  · intro h
    have hmap : store.attendance.map (fun a =>
        if a.id == rid && canUpdateAttendance store uid a then
          { a with
            is_present := !cur
            method := some "manual"
            marked_at := some nowMs }
        else a) = store.attendance := by
      have h1 : store.attendance.map (fun a =>
          if a.id == rid && canUpdateAttendance store uid a then
            { a with
              is_present := !cur
              method := some "manual"
              marked_at := some nowMs }
          else a) = store.attendance.map id := by
        refine List.map_congr_left fun a ha => ?_
        by_cases hid : a.id = rid
        · have hdeny := h a ha hid
          have hpol : canUpdateAttendance store uid a = false := by
            simp only [canUpdateAttendance, Bool.or_eq_false_iff,
              List.any_eq_false]
            refine ⟨by simpa [beq_iff_eq] using hdeny.1, ?_⟩
            intro s hs
            simp only [Bool.and_eq_true, beq_iff_eq, not_and]
            intro hsid
            exact hdeny.2 s hs hsid
          simp [hpol]
        · simp [hid]
      rw [h1, List.map_id]
    simp only [toggleAttendance, hmap]
  · intro a ha hid hown
    obtain ⟨s, hs, hsid, howner⟩ := hown
    have hpol : (a.id == rid && canUpdateAttendance store uid a) = true := by
      simp only [Bool.and_eq_true, beq_iff_eq]
      refine ⟨hid, ?_⟩
      simp only [canUpdateAttendance, Bool.or_eq_true, List.any_eq_true]
      exact Or.inr ⟨s, hs, by simp [beq_iff_eq, hsid, howner]⟩
    simp only [toggleAttendance, List.mem_map]
    exact ⟨a, ha, by rw [if_pos hpol]⟩

/-- Claim C7 amended witness: concrete runs of both halves — caller `X`
(neither owner `T` nor student `A`) leaves the store unchanged, and owner
`T`'s override lands the toggled, manual, re-timestamped row in the store. -/
theorem manual_override_policy_witness :
    toggleAttendance overrideStore "X" 1 true 99 = overrideStore ∧
    (⟨1, "s1", "A", false, some "manual", some 77⟩ : AttendanceRec) ∈
      (toggleAttendance overrideStore "T" 1 true 77).attendance :=
  ⟨(manual_override_policy overrideStore "X" 1 true 99).1 (by decide),
    (manual_override_policy overrideStore "T" 1 true 77).2 overrideRecord
      (by decide) (by decide)
      ⟨demoSession, by decide, by decide, by decide⟩⟩

/-- Claim C8: the CSV export is a pure read-only projection — the store
comes back untouched, the produced line list has exactly one header plus one
row per listed record, the (i+1)-th line is the row of the i-th record, and
each row consists of exactly the five fields name, roll number, presence,
method, timestamp, comma-delimited in that order. -/
theorem export_is_pure_projection (store : Store) (fmt : Nat → String)
    (records : List ViewRecord) :
    (exportAttendanceOp store fmt records).2 = store ∧
    (csvLines fmt records).length = records.length + 1 ∧
    (∀ i r, records[i]? = some r →
      (csvLines fmt records)[i + 1]? = some (csvRow fmt r)) ∧
    (∀ r : ViewRecord, csvRow fmt r =
      r.name ++ "," ++ r.roll_number.getD "" ++ "," ++
        (if r.is_present then "Present" else "Absent") ++ "," ++
        r.method.getD "" ++ "," ++
        (match r.marked_at with | some t => fmt t | none => "")) := by
  refine ⟨rfl, by simp [csvLines], ?_, ?_⟩
  · intro i r h
    simp [csvLines, List.getElem?_map, h]
  · intro r
    simp [csvRow, String.intercalate, String.intercalate.go,
      String.append_assoc]

/-- Claim C8 witness: the second line of the export of a one-record list is
that record's row, by the projection theorem at a concrete record. -/
theorem export_is_pure_projection_witness :
    (csvLines (fun n => toString n)
        [⟨"Ana", some "7", true, some "qr", some 5⟩])[1]? =
      some (csvRow (fun n => toString n)
        ⟨"Ana", some "7", true, some "qr", some 5⟩) :=
  (export_is_pure_projection demoStore (fun n => toString n)
      [⟨"Ana", some "7", true, some "qr", some 5⟩]).2.2.1 0
    ⟨"Ana", some "7", true, some "qr", some 5⟩ (by decide)

/-- Claim C9: role dispatch selects exactly one dashboard for every profile:
'student' maps to the student dashboard, 'teacher' to the teacher dashboard,
'admin' and 'counselor' both to the admin dashboard, a missing role to the
student dashboard, and any role string other than the four labels falls back
to the student dashboard. -/
theorem role_dispatch_total :
    renderDashboard (some "student") = Dashboard.studentDash ∧
    renderDashboard (some "teacher") = Dashboard.teacherDash ∧
    renderDashboard (some "admin") = Dashboard.adminDash ∧
    renderDashboard (some "counselor") = Dashboard.adminDash ∧
    renderDashboard none = Dashboard.studentDash ∧
    (∀ role : Option String, role ≠ some "student" →
      role ≠ some "teacher" → role ≠ some "admin" →
      role ≠ some "counselor" →
      renderDashboard role = Dashboard.studentDash) := by
  refine ⟨rfl, rfl, rfl, rfl, rfl, ?_⟩
  intro role h1 h2 h3 h4
  simp [renderDashboard, h1, h2, h3, h4]

/-- Claim C9 witness: an unrecognised role string falls back to the student
dashboard, by the dispatch theorem at the concrete role 'guest'. -/
theorem role_dispatch_total_witness :
    renderDashboard (some "guest") = Dashboard.studentDash :=
  role_dispatch_total.2.2.2.2.2 (some "guest") (by decide) (by decide)
    (by decide) (by decide)

/-- Claim C10: when the scanned code matches no session of the student's
fetched-today list that is active, `handleQRScan` reports an invalid QR code
and returns the store unchanged — no attendance row is created or
modified. -/
theorem rejected_scan_leaves_store_unchanged (store : Store)
    (today studentId qrCode : String) (enrolled : List String)
    (nowMs : Nat)
    (hnone : ∀ s ∈ fetchTodaySessions store today enrolled,
      ¬(s.qr_code = some qrCode ∧ s.is_active = true)) :
    handleQRScan store (fetchTodaySessions store today enrolled)
        studentId qrCode nowMs =
      (ScanResult.invalidQR, store) :=
  handleQRScan_not_found _ _ _ _ _ hnone

/-- Claim C10 witness: scanning an arbitrary code against the store whose
only session is scheduled (inactive, no token) is rejected with the store
unchanged. -/
theorem rejected_scan_leaves_store_unchanged_witness :
    handleQRScan demoStore (fetchTodaySessions demoStore "d1" ["c1"])
        "A" "nope" 5 =
      (ScanResult.invalidQR, demoStore) :=
  rejected_scan_leaves_store_unchanged demoStore "d1" "A" "nope" ["c1"] 5
    (by decide)

end LearnPulse
